import Mathlib

/-!
Verification of the packit configuration-resolution core
(`packit/config/package_config.py`, `packit/config/job_config.py`).

The Python sources are embedded shallowly: classes become structures,
`Optional[str]` becomes `Option String`, Python truthiness of strings and
lists is made explicit, fallible code returns `Except`, and the in-place
mutations performed by `get_all_files_to_sync` and by the
`downstream_project_url` property are modelled by returning the updated
object alongside the result.  Modules of the repository that are not among
the sources (`packit.schema`, `packit.config.common_package_config`,
`packit.config.sync_files_config`, `packit.config.aliases`,
`packit.constants`, and the `default_jobs` value imported by
`package_config.py`) are modelled from the specification; each such
definition is marked `Modelled from the spec:` in its doc comment.
-/

namespace Packit

/-- Python truthiness of an optional string: `None` and `""` are falsy. -/
def optStrTruthy (x : Option String) : Bool :=
  match x with
  | none => false
  | some s => decide (s ≠ "")

/-- Python `x or d` for an optional string argument: `None` and `""` give `d`. -/
def strOr (x : Option String) (d : String) : String :=
  match x with
  | none => d
  | some s => if s = "" then d else s

/-- Python `x or d` for an optional list argument: `None` and `[]` give `d`. -/
def listOr {α : Type} (x : Option (List α)) (d : List α) : List α :=
  match x with
  | none => d
  | some l => if l.isEmpty then d else l

/-- Python string interpolation of an optional value (`None` prints as `"None"`). -/
def optStr : Option String → String
  | none => "None"
  | some s => s

/-- Job-level override of an attribute that is optional at the package level:
a value supplied in the raw job mapping replaces the package-level one,
otherwise the package-level value is inherited. -/
def inheritOpt {α : Type} (raw : Option α) (pkg : Option α) : Option α :=
  match raw with
  | some v => some v
  | none => pkg

/-- `packit.exceptions`: every error raised by the sampled code is a
`PackitConfigException` carrying a message; schema validation failures
(marshmallow `ValidationError`, raised by the schema module that is not among
the sources) are kept as a distinct constructor so that the wrapping performed
by `parse_loaded_config` is observable. -/
inductive PExc where
  | packitConfigException (msg : String)
  | validationError (msg : String)
deriving DecidableEq

/-- Python `str(ex)`: the message of the exception. -/
def PExc.message : PExc → String
  | .packitConfigException m => m
  | .validationError m => m

/-- Modelled from the spec: `packit.constants.PROD_DISTGIT_URL`, the known
production dist-git host used as the `dist_git_base_url` default (§3); the
constants module is not among the sources. -/
def PROD_DISTGIT_URL : String := "https://src.fedoraproject.org/"

/-- Modelled from the spec: `packit.config.aliases.DEFAULT_VERSION`, the
platform-default target identifier supplied by the Alias/Default Catalog
(§2, §4.1); the aliases module is not among the sources. -/
def DEFAULT_VERSION : String := "fedora-stable"

/-- `JobType` from `job_config.py` (lines 16-27). -/
inductive JobType where
  | propose_downstream
  | build
  | sync_from_downstream
  | copr_build
  | production_build
  | koji_build
  | tests
  | bodhi_update
  | vm_image_build
deriving DecidableEq

/-- Deserialization of a `JobType` member from its configuration string;
unknown values are a validation error (spec §3: closed set). -/
def JobType.fromString : String → Option JobType
  | "propose_downstream" => some .propose_downstream
  | "build" => some .build
  | "sync_from_downstream" => some .sync_from_downstream
  | "copr_build" => some .copr_build
  | "production_build" => some .production_build
  | "koji_build" => some .koji_build
  | "tests" => some .tests
  | "bodhi_update" => some .bodhi_update
  | "vm_image_build" => some .vm_image_build
  | _ => none

/-- `JobConfigTriggerType` from `job_config.py` (lines 30-33). -/
inductive JobConfigTriggerType where
  | release
  | pull_request
  | commit
deriving DecidableEq

/-- Deserialization of a trigger from its configuration string. -/
def JobConfigTriggerType.fromString : String → Option JobConfigTriggerType
  | "release" => some .release
  | "pull_request" => some .pull_request
  | "commit" => some .commit
  | _ => none

/-- Modelled from the spec: `SyncFilesItem` from
`packit.config.sync_files_config` (module not among the sources) — one
`(src, dest)` file-copy declaration (§3).  The fields are optional strings
because `get_all_files_to_sync` in the sampled source stores the possibly-unset
`specfile_path` / `config_file_path` attribute values in these slots. -/
structure SyncFilesItem where
  src : Option String
  dest : Option String
deriving DecidableEq

/-- Modelled from the spec: `SyncFilesConfig` from
`packit.config.sync_files_config` (module not among the sources) — an ordered
sequence of `SyncFilesItem` entries held in its `files_to_sync` attribute;
duplicates are not rejected by the container itself (§3). -/
structure SyncFilesConfig where
  files_to_sync : List SyncFilesItem
deriving DecidableEq

/-- `PullRequestNotificationsConfig` (`package_config.py` lines 42-46). -/
structure PullRequestNotificationsConfig where
  successful_build : Bool := true
deriving DecidableEq

/-- `NotificationsConfig` (`package_config.py` lines 49-53). -/
structure NotificationsConfig where
  pull_request : PullRequestNotificationsConfig
deriving DecidableEq

/-- Modelled from the spec: `CommonPackageConfig` from
`packit.config.common_package_config` (module not among the sources) — the
overridable attribute set shared by the package and its jobs (§3), together
with the job metadata fields (`targets`, `dist_git_branches`) carried by the
Default Catalog's declarations (§4.1).  Field defaults are the §3 defaults. -/
structure CommonPackageConfig where
  specfile_path : Option String := none
  synced_files : SyncFilesConfig := SyncFilesConfig.mk []
  dist_git_namespace : String := "rpms"
  upstream_project_url : Option String := none
  downstream_project_url : Option String := none
  upstream_package_name : Option String := none
  downstream_package_name : Option String := none
  dist_git_base_url : String := PROD_DISTGIT_URL
  create_tarball_command : Option (List String) := none
  current_version_command : List String := ["git", "describe", "--tags", "--match", "*"]
  actions : List (String × List String) := []
  upstream_ref : Option String := none
  allowed_gpg_keys : Option (List String) := none
  create_pr : Bool := true
  spec_source_id : String := "Source0"
  upstream_tag_template : String := "\x7bversion\x7d"
  patch_generation_ignore_paths : List String := []
  notifications : NotificationsConfig := NotificationsConfig.mk (PullRequestNotificationsConfig.mk true)
  targets : List String := []
  dist_git_branches : List String := []
deriving DecidableEq

/-- `JobConfig` from `job_config.py` (lines 36-56): a job type, a trigger and
the full overridable attribute set. -/
structure JobConfig extends CommonPackageConfig where
  type : JobType
  trigger : JobConfigTriggerType
deriving DecidableEq

/-- A raw job mapping as it appears under the `jobs` key of a raw document:
the required `job` and `trigger` strings plus any subset of the overridable
attributes (§4.2, §6). -/
structure RawJob where
  job : String
  trigger : String
  specfile_path : Option String := none
  synced_files : Option SyncFilesConfig := none
  dist_git_namespace : Option String := none
  upstream_project_url : Option String := none
  downstream_project_url : Option String := none
  upstream_package_name : Option String := none
  downstream_package_name : Option String := none
  dist_git_base_url : Option String := none
  create_tarball_command : Option (List String) := none
  current_version_command : Option (List String) := none
  actions : Option (List (String × List String)) := none
  upstream_ref : Option String := none
  allowed_gpg_keys : Option (List String) := none
  create_pr : Option Bool := none
  spec_source_id : Option String := none
  upstream_tag_template : Option String := none
  patch_generation_ignore_paths : Option (List String) := none
  notifications : Option NotificationsConfig := none
  targets : Option (List String) := none
  dist_git_branches : Option (List String) := none
deriving DecidableEq

/-- A raw configuration document, after text parsing (an external
collaborator's job, §6): a nested mapping with optional top-level keys.
`jobs = none` models absence of the `jobs` key; `jobs = some []` models an
explicit empty job list — the two are distinct (§4.3 step 5). -/
structure RawDocument where
  config_file_path : Option String := none
  specfile_path : Option String := none
  synced_files : Option (List SyncFilesItem) := none
  patch_generation_ignore_paths : Option (List String) := none
  jobs : Option (List RawJob) := none
  dist_git_namespace : Option String := none
  upstream_project_url : Option String := none
  upstream_package_name : Option String := none
  downstream_project_url : Option String := none
  downstream_package_name : Option String := none
  dist_git_base_url : Option String := none
  create_tarball_command : Option (List String) := none
  current_version_command : Option (List String) := none
  actions : Option (List (String × List String)) := none
  upstream_ref : Option String := none
  allowed_gpg_keys : Option (List String) := none
  create_pr : Option Bool := none
  spec_source_id : Option String := none
  upstream_tag_template : Option String := none
deriving DecidableEq

/-- `PackageConfig` state (`package_config.py` lines 56-121): the attributes
stored by `__init__`, in source order.  `_downstream_project_url` is the cache
cell behind the `downstream_project_url` property. -/
structure PackageConfig where
  config_file_path : Option String
  specfile_path : Option String
  synced_files : SyncFilesConfig
  patch_generation_ignore_paths : List String
  jobs : List JobConfig
  dist_git_namespace : String
  upstream_project_url : Option String
  upstream_package_name : Option String
  downstream_package_name : Option String
  dist_git_base_url : String
  _downstream_project_url : Option String
  dist_git_clone_path : Option String
  actions : List (String × List String)
  upstream_ref : Option String
  allowed_gpg_keys : Option (List String)
  create_pr : Bool
  spec_source_id : String
  notifications : NotificationsConfig
  create_tarball_command : Option (List String)
  current_version_command : List String
  upstream_tag_template : String
deriving DecidableEq

/-- The keyword arguments of `PackageConfig.__init__` (lines 62-84), with the
source's default values (`None` becomes `none`). -/
structure PackageConfigArgs where
  config_file_path : Option String := none
  specfile_path : Option String := none
  synced_files : Option SyncFilesConfig := none
  jobs : Option (List JobConfig) := none
  dist_git_namespace : Option String := none
  upstream_project_url : Option String := none
  upstream_package_name : Option String := none
  downstream_project_url : Option String := none
  downstream_package_name : Option String := none
  dist_git_base_url : Option String := none
  create_tarball_command : Option (List String) := none
  current_version_command : Option (List String) := none
  actions : Option (List (String × List String)) := none
  upstream_ref : Option String := none
  allowed_gpg_keys : Option (List String) := none
  create_pr : Bool := true
  spec_source_id : String := "Source0"
  upstream_tag_template : String := "\x7bversion\x7d"
  patch_generation_ignore_paths : Option (List String) := none
  notifications : Option NotificationsConfig := none
deriving DecidableEq

/-- `PackageConfig.__init__` (lines 86-124): stores the arguments, applying
the Python `or` defaults (`x or d` yields `d` when `x` is `None`, an empty
string or an empty list). -/
def PackageConfig.init (a : PackageConfigArgs) : PackageConfig :=
  { config_file_path := a.config_file_path
    specfile_path := a.specfile_path
    synced_files := a.synced_files.getD (SyncFilesConfig.mk [])
    patch_generation_ignore_paths := listOr a.patch_generation_ignore_paths []
    jobs := listOr a.jobs []
    dist_git_namespace := strOr a.dist_git_namespace "rpms"
    upstream_project_url := a.upstream_project_url
    upstream_package_name := a.upstream_package_name
    downstream_package_name := a.downstream_package_name
    dist_git_base_url := strOr a.dist_git_base_url PROD_DISTGIT_URL
    _downstream_project_url := a.downstream_project_url
    dist_git_clone_path := none
    actions := listOr a.actions []
    upstream_ref := a.upstream_ref
    allowed_gpg_keys := a.allowed_gpg_keys
    create_pr := a.create_pr
    spec_source_id := a.spec_source_id
    notifications := a.notifications.getD (NotificationsConfig.mk (PullRequestNotificationsConfig.mk true))
    create_tarball_command := a.create_tarball_command
    current_version_command := listOr a.current_version_command ["git", "describe", "--tags", "--match", "*"]
    upstream_tag_template := a.upstream_tag_template }

/-- The `dist_git_package_url` property (lines 132-137): recomputed on every
call from the current field values; a `None` package name is interpolated as
the string `"None"`, as Python f-strings do. -/
def PackageConfig.dist_git_package_url (p : PackageConfig) : String :=
  p.dist_git_base_url ++ p.dist_git_namespace ++ "/" ++ optStr p.downstream_package_name ++ ".git"

/-- The `downstream_project_url` property (lines 126-130): if the cache cell
is falsy (`None` or `""`), compute `dist_git_package_url`, store it, and
return it; otherwise return the cached value.  The possibly-updated object is
returned alongside the value because the property assigns to
`self._downstream_project_url`. -/
def PackageConfig.downstream_project_url (p : PackageConfig) : String × PackageConfig :=
  if optStrTruthy p._downstream_project_url then
    (optStr p._downstream_project_url, p)
  else
    let url := p.dist_git_package_url
    (url, { p with _downstream_project_url := some url })

/-- The package-level view of a `PackageConfig` as a `CommonPackageConfig`:
the attribute set jobs inherit from (§4.2).  The source `PackageConfig` has no
`targets` / `dist_git_branches` fields (unknown keyword arguments are dropped
by `__init__`), so those are empty at the package level. -/
def PackageConfig.commonAttrs (p : PackageConfig) : CommonPackageConfig :=
  { specfile_path := p.specfile_path
    synced_files := p.synced_files
    dist_git_namespace := p.dist_git_namespace
    upstream_project_url := p.upstream_project_url
    downstream_project_url := p._downstream_project_url
    upstream_package_name := p.upstream_package_name
    downstream_package_name := p.downstream_package_name
    dist_git_base_url := p.dist_git_base_url
    create_tarball_command := p.create_tarball_command
    current_version_command := p.current_version_command
    actions := p.actions
    upstream_ref := p.upstream_ref
    allowed_gpg_keys := p.allowed_gpg_keys
    create_pr := p.create_pr
    spec_source_id := p.spec_source_id
    upstream_tag_template := p.upstream_tag_template
    patch_generation_ignore_paths := p.patch_generation_ignore_paths
    notifications := p.notifications
    targets := []
    dist_git_branches := [] }

/-- Modelled from the spec: §4.2 `resolveJob` — the schema-driven job
deserialization (`packit.schema`, not among the sources).  `job` and `trigger`
are required and must be members of their enumerations, else a
ValidationError; every other attribute is the raw job's value when supplied,
otherwise the package-level value (field-by-field wholesale replacement). -/
def resolveJob (raw : RawJob) (pkg : CommonPackageConfig) : Except PExc JobConfig :=
  match JobType.fromString raw.job with
  | none => .error (.validationError ("Invalid job type: " ++ raw.job))
  | some t =>
    match JobConfigTriggerType.fromString raw.trigger with
    | none => .error (.validationError ("Invalid trigger type: " ++ raw.trigger))
    | some tr =>
      .ok
        { specfile_path := inheritOpt raw.specfile_path pkg.specfile_path
          synced_files := raw.synced_files.getD pkg.synced_files
          dist_git_namespace := raw.dist_git_namespace.getD pkg.dist_git_namespace
          upstream_project_url := inheritOpt raw.upstream_project_url pkg.upstream_project_url
          downstream_project_url := inheritOpt raw.downstream_project_url pkg.downstream_project_url
          upstream_package_name := inheritOpt raw.upstream_package_name pkg.upstream_package_name
          downstream_package_name := inheritOpt raw.downstream_package_name pkg.downstream_package_name
          dist_git_base_url := raw.dist_git_base_url.getD pkg.dist_git_base_url
          create_tarball_command := inheritOpt raw.create_tarball_command pkg.create_tarball_command
          current_version_command := raw.current_version_command.getD pkg.current_version_command
          actions := raw.actions.getD pkg.actions
          upstream_ref := inheritOpt raw.upstream_ref pkg.upstream_ref
          allowed_gpg_keys := inheritOpt raw.allowed_gpg_keys pkg.allowed_gpg_keys
          create_pr := raw.create_pr.getD pkg.create_pr
          spec_source_id := raw.spec_source_id.getD pkg.spec_source_id
          upstream_tag_template := raw.upstream_tag_template.getD pkg.upstream_tag_template
          patch_generation_ignore_paths := raw.patch_generation_ignore_paths.getD pkg.patch_generation_ignore_paths
          notifications := raw.notifications.getD pkg.notifications
          targets := raw.targets.getD pkg.targets
          dist_git_branches := raw.dist_git_branches.getD pkg.dist_git_branches
          type := t
          trigger := tr }

/-- `get_default_jobs` from `job_config.py` (lines 88-112): the Default
Catalog's three canonical raw job declarations.  The source's `deepcopy`
(freshness of the returned structures) is implicit in value semantics. -/
def get_default_jobs : List RawJob :=
  [ { job := "copr_build", trigger := "pull_request", targets := some [DEFAULT_VERSION] },
    { job := "tests", trigger := "pull_request", targets := some [DEFAULT_VERSION] },
    { job := "propose_downstream", trigger := "release", dist_git_branches := some ["fedora-all"] } ]

/-- Modelled from the spec: the `default_jobs` value assigned by
`PackageConfig.get_from_dict` (line 168).  Its definition is not among the
sources (`job_config.py` provides only the raw catalog `get_default_jobs`);
per §4.3 step 5 it is the Default Catalog's output with each entry resolved
per §4.2 against the already-established package-level attributes. -/
def default_jobs (pkg : CommonPackageConfig) : Except PExc (List JobConfig) :=
  get_default_jobs.mapM (fun rj => resolveJob rj pkg)

/-- Modelled from the spec: the package-level part of the schema load —
§4.3 step 2: construct the package-level attributes from the document with
the §3 field defaults (the `jobs` key is handled by `schemaLoad`). -/
def schemaPackageLevel (raw : RawDocument) : PackageConfig :=
  PackageConfig.init
    { config_file_path := raw.config_file_path
      specfile_path := raw.specfile_path
      synced_files := (raw.synced_files).map SyncFilesConfig.mk
      jobs := none
      dist_git_namespace := raw.dist_git_namespace
      upstream_project_url := raw.upstream_project_url
      upstream_package_name := raw.upstream_package_name
      downstream_project_url := raw.downstream_project_url
      downstream_package_name := raw.downstream_package_name
      dist_git_base_url := raw.dist_git_base_url
      create_tarball_command := raw.create_tarball_command
      current_version_command := raw.current_version_command
      actions := raw.actions
      upstream_ref := raw.upstream_ref
      allowed_gpg_keys := raw.allowed_gpg_keys
      create_pr := (raw.create_pr).getD true
      spec_source_id := (raw.spec_source_id).getD "Source0"
      upstream_tag_template := (raw.upstream_tag_template).getD "\x7bversion\x7d"
      patch_generation_ignore_paths := raw.patch_generation_ignore_paths
      notifications := none }

/-- Modelled from the spec: `PackageConfigSchema(strict=True).load` from
`packit.schema` (not among the sources) — §4.3 step 2: validate the raw
document and construct the package-level attributes with the §3 field
defaults; each entry of an explicit `jobs` list is resolved per §4.2 against
the document's package-level attributes. -/
def schemaLoad (raw : RawDocument) : Except PExc PackageConfig :=
  match raw.jobs with
  | none => .ok (schemaPackageLevel raw)
  | some rjs =>
    (rjs.mapM (fun rj => resolveJob rj (schemaPackageLevel raw).commonAttrs)).map
      (fun js => { schemaPackageLevel raw with jobs := js })

/-- `get_from_dict` lines 150-151: if a `config_file_path` argument was given
and the raw document does not already carry a truthy one, inject it into the
document before validation. -/
def updateConfigFilePath (raw : RawDocument) (config_file_path : Option String) : RawDocument :=
  if optStrTruthy config_file_path && ! optStrTruthy raw.config_file_path then
    { raw with config_file_path := config_file_path }
  else raw

/-- `get_from_dict` lines 155-159: if the loaded configuration's
`specfile_path` is still unset (falsy), use a truthy `spec_file_path`
argument, else raise `PackitConfigException("Spec file was not found!")`. -/
def ensureSpecfilePath (pc : PackageConfig) (spec_file_path : Option String) : Except PExc PackageConfig :=
  if optStrTruthy pc.specfile_path then .ok pc
  else if optStrTruthy spec_file_path then .ok { pc with specfile_path := spec_file_path }
  else .error (.packitConfigException "Spec file was not found!")

/-- `get_from_dict` lines 161-162: default an unset (falsy)
`upstream_package_name` from the `repo_name` argument. -/
def defaultUpstreamName (pc : PackageConfig) (repo_name : Option String) : PackageConfig :=
  if ! optStrTruthy pc.upstream_package_name && optStrTruthy repo_name then
    { pc with upstream_package_name := repo_name }
  else pc

/-- `get_from_dict` lines 164-165: default an unset (falsy)
`downstream_package_name` from the `repo_name` argument. -/
def defaultDownstreamName (pc : PackageConfig) (repo_name : Option String) : PackageConfig :=
  if ! optStrTruthy pc.downstream_package_name && optStrTruthy repo_name then
    { pc with downstream_package_name := repo_name }
  else pc

/-- `get_from_dict` lines 161-165: default each unset package name from the
`repo_name` argument, independently. -/
def defaultNamesFromRepo (pc : PackageConfig) (repo_name : Option String) : PackageConfig :=
  defaultDownstreamName (defaultUpstreamName pc repo_name) repo_name

/-- `get_from_dict` lines 167-168: if the raw document has no `jobs` key at
all, assign `default_jobs`; an explicit (even empty) `jobs` list is kept. -/
def injectDefaultJobs (raw : RawDocument) (pc : PackageConfig) : Except PExc PackageConfig :=
  if raw.jobs.isNone then
    (default_jobs pc.commonAttrs).map (fun djs => { pc with jobs := djs })
  else .ok pc

/-- `PackageConfig.get_from_dict` (lines 139-170): the Resolver pipeline. -/
def PackageConfig.get_from_dict (raw_dict : RawDocument)
    (config_file_path repo_name spec_file_path : Option String) :
    Except PExc PackageConfig :=
  match schemaLoad (updateConfigFilePath raw_dict config_file_path) with
  | .error e => .error e
  | .ok pc0 =>
    match ensureSpecfilePath pc0 spec_file_path with
    | .error e => .error e
    | .ok pc1 =>
      injectDefaultJobs (updateConfigFilePath raw_dict config_file_path)
        (defaultNamesFromRepo pc1 repo_name)

/-- `parse_loaded_config` (lines 304-323): calls `get_from_dict` and re-raises
any exception (`except Exception`) as a fresh
`PackitConfigException("Cannot parse package config: ...")`. -/
def parse_loaded_config (loaded_config : RawDocument)
    (config_file_path repo_name spec_file_path : Option String) :
    Except PExc PackageConfig :=
  match PackageConfig.get_from_dict loaded_config config_file_path repo_name spec_file_path with
  | .ok pc => .ok pc
  | .error ex => .error (.packitConfigException ("Cannot parse package config: " ++ ex.message ++ "."))

/-- `get_all_files_to_sync` lines 179-180: append a spec-file entry unless
some existing entry already has the spec file path as its `src`. -/
def addSpecToSync (p : PackageConfig) (files : List SyncFilesItem) : List SyncFilesItem :=
  if p.specfile_path ∈ files.map SyncFilesItem.src then files
  else files ++ [SyncFilesItem.mk p.specfile_path p.specfile_path]

/-- `get_all_files_to_sync` lines 182-187: if `config_file_path` is truthy
and no existing entry has it as its `src`, append a config-file entry. -/
def addConfigToSync (p : PackageConfig) (files : List SyncFilesItem) : List SyncFilesItem :=
  if optStrTruthy p.config_file_path && ! decide (p.config_file_path ∈ files.map SyncFilesItem.src) then
    files ++ [SyncFilesItem.mk p.config_file_path p.config_file_path]
  else files

/-- `PackageConfig.get_all_files_to_sync` (lines 172-189).  In the source,
`files` aliases the list object stored in `self.synced_files.files_to_sync`,
so the two `append` calls mutate the stored set; the returned
`SyncFilesConfig` wraps that same list.  The updated `PackageConfig` is
returned alongside the result to capture this mutation. -/
def PackageConfig.get_all_files_to_sync (p : PackageConfig) : SyncFilesConfig × PackageConfig :=
  (SyncFilesConfig.mk (addConfigToSync p (addSpecToSync p p.synced_files.files_to_sync)),
   { p with synced_files :=
      SyncFilesConfig.mk (addConfigToSync p (addSpecToSync p p.synced_files.files_to_sync)) })

/-- The field comparisons of `PackageConfig.__eq__` (lines 196-213), in source
order.  `jobs` comparison is Python list equality with `JobConfig.__eq__`,
i.e. equality of canonical serialized forms, modelled as structural equality;
`downstream_project_url` is the property value (its cache side effect does not
change the boolean outcome). -/
def PackageConfig.eqFields (p other : PackageConfig) : Bool :=
  decide (p.specfile_path = other.specfile_path)
  && decide (p.synced_files = other.synced_files)
  && decide (p.jobs = other.jobs)
  && decide (p.dist_git_namespace = other.dist_git_namespace)
  && decide (p.upstream_project_url = other.upstream_project_url)
  && decide (p.upstream_package_name = other.upstream_package_name)
  && decide ((p.downstream_project_url).1 = (other.downstream_project_url).1)
  && decide (p.downstream_package_name = other.downstream_package_name)
  && decide (p.dist_git_base_url = other.dist_git_base_url)
  && decide (p.current_version_command = other.current_version_command)
  && decide (p.create_tarball_command = other.create_tarball_command)
  && decide (p.actions = other.actions)
  && decide (p.allowed_gpg_keys = other.allowed_gpg_keys)
  && decide (p.create_pr = other.create_pr)
  && decide (p.spec_source_id = other.spec_source_id)
  && decide (p.upstream_tag_template = other.upstream_tag_template)

/-- A Python value, for modelling the `==` protocol across the classes the
claims compare: a `PackageConfig`, a `JobConfig`, or an unrelated built-in
value. -/
inductive PyVal where
  | packageConfig (p : PackageConfig)
  | jobConfig (j : JobConfig)
  | pyStr (s : String)
  | pyInt (n : Int)
  | pyNone
deriving DecidableEq

/-- Result of one `__eq__` call: a boolean, or `NotImplemented`. -/
inductive DunderResult where
  | val (b : Bool)
  | notImplemented
deriving DecidableEq

/-- The `__eq__` methods: `PackageConfig.__eq__` (lines 191-213) returns
`NotImplemented` for a non-`PackageConfig` argument; `JobConfig.__eq__`
(`job_config.py` lines 77-85) raises `PackitConfigException` for a
non-`JobConfig` argument and otherwise compares the serialized forms
(structural equality); built-ins compare by value and return `NotImplemented`
across types. -/
def dunderEq : PyVal → PyVal → Except PExc DunderResult
  | .packageConfig p, .packageConfig q => .ok (.val (p.eqFields q))
  | .packageConfig _, _ => .ok .notImplemented
  | .jobConfig j, .jobConfig k => .ok (.val (decide (j = k)))
  | .jobConfig _, _ => .error (.packitConfigException "Provided object is not a JobConfig instance.")
  | .pyStr s, .pyStr t => .ok (.val (decide (s = t)))
  | .pyStr _, _ => .ok .notImplemented
  | .pyInt m, .pyInt n => .ok (.val (decide (m = n)))
  | .pyInt _, _ => .ok .notImplemented
  | .pyNone, .pyNone => .ok (.val true)
  | .pyNone, _ => .ok .notImplemented

/-- Python's `a == b` protocol: try `a.__eq__(b)`; on `NotImplemented` try the
reflected `b.__eq__(a)`; if both decline, fall back to identity, which is
false for the cross-class comparisons modelled here (same-class comparisons
never reach the fallback). -/
def pyEq (a b : PyVal) : Except PExc Bool :=
  match dunderEq a b with
  | .error e => .error e
  | .ok (.val r) => .ok r
  | .ok .notImplemented =>
    match dunderEq b a with
    | .error e => .error e
    | .ok (.val r) => .ok r
    | .ok .notImplemented => .ok false

/-- Count of entries of a synced-file set whose `src` equals `v`. -/
def countSrc (s : SyncFilesConfig) (v : Option String) : Nat :=
  s.files_to_sync.countP (fun i => decide (i.src = v))

/-- `n` successive calls to `get_all_files_to_sync`, threading the (mutated)
configuration through. -/
def iterSync : Nat → PackageConfig → PackageConfig
  | 0, p => p
  | n + 1, p => iterSync n (p.get_all_files_to_sync).2

/-- A resolved configuration for a raw document lacking a `jobs` key. -/
def pcNoJobsKey : PackageConfig :=
  match PackageConfig.get_from_dict { specfile_path := some "foo.spec" } none none none with
  | .ok pc => pc
  | .error _ => PackageConfig.init {}

/-- A resolved configuration for a raw document with an explicit `jobs: []`. -/
def pcEmptyJobs : PackageConfig :=
  match PackageConfig.get_from_dict { specfile_path := some "foo.spec", jobs := some [] } none none none with
  | .ok pc => pc
  | .error _ => PackageConfig.init {}

/-- A configuration whose stored synced-file set already holds two entries
with `src` equal to the spec file path. -/
def pcDupSrc : PackageConfig :=
  PackageConfig.init
    { specfile_path := some "a.spec"
      synced_files := some (SyncFilesConfig.mk
        [SyncFilesItem.mk (some "a.spec") (some "x"),
         SyncFilesItem.mk (some "a.spec") (some "y")]) }

/-- A configuration with a spec file path and a config file path. -/
def pcBothPaths : PackageConfig :=
  PackageConfig.init { config_file_path := some ".packit.yaml", specfile_path := some "a.spec" }

/-- A concrete job definition (all common attributes at their defaults). -/
def jobTestsCommit : JobConfig :=
  { type := JobType.tests, trigger := JobConfigTriggerType.commit }

/-- A second concrete job definition. -/
def jobBuildRelease : JobConfig :=
  { type := JobType.build, trigger := JobConfigTriggerType.release }

lemma updateConfigFilePath_jobs (raw : RawDocument) (cfp : Option String) :
    (updateConfigFilePath raw cfp).jobs = raw.jobs := by
  unfold updateConfigFilePath
  split <;> rfl

lemma updateConfigFilePath_specfile_path (raw : RawDocument) (cfp : Option String) :
    (updateConfigFilePath raw cfp).specfile_path = raw.specfile_path := by
  unfold updateConfigFilePath
  split <;> rfl

lemma schemaLoad_ok_specfile_path {raw : RawDocument} {pc : PackageConfig}
    (h : schemaLoad raw = .ok pc) : pc.specfile_path = raw.specfile_path := by
  cases hj : raw.jobs with
  | none =>
    simp only [schemaLoad, hj] at h
    injection h with h
    rw [← h]
    rfl
  | some rjs =>
    simp only [schemaLoad, hj] at h
    cases hm : rjs.mapM (fun rj => resolveJob rj (schemaPackageLevel raw).commonAttrs) with
    | error e => rw [hm] at h; simp [Except.map] at h
    | ok js =>
      rw [hm] at h
      simp only [Except.map] at h
      injection h with h
      rw [← h]
      rfl

lemma schemaLoad_empty_jobs {raw : RawDocument} {pc : PackageConfig}
    (hj : raw.jobs = some []) (h : schemaLoad raw = .ok pc) : pc.jobs = [] := by
  simp only [schemaLoad, hj, List.mapM, List.mapM.loop, List.reverse_nil, Except.map] at h
  injection h with h
  rw [← h]

lemma ensureSpecfilePath_ok_jobs {pc pc1 : PackageConfig} {sfp : Option String}
    (h : ensureSpecfilePath pc sfp = .ok pc1) : pc1.jobs = pc.jobs := by
  unfold ensureSpecfilePath at h
  split at h
  · injection h with h
    rw [← h]
  · split at h
    · injection h with h
      rw [← h]
    · simp at h

lemma defaultUpstreamName_jobs (pc : PackageConfig) (rn : Option String) :
    (defaultUpstreamName pc rn).jobs = pc.jobs := by
  unfold defaultUpstreamName
  split <;> rfl

lemma defaultDownstreamName_jobs (pc : PackageConfig) (rn : Option String) :
    (defaultDownstreamName pc rn).jobs = pc.jobs := by
  unfold defaultDownstreamName
  split <;> rfl

lemma defaultNamesFromRepo_jobs (pc : PackageConfig) (rn : Option String) :
    (defaultNamesFromRepo pc rn).jobs = pc.jobs := by
  unfold defaultNamesFromRepo
  rw [defaultDownstreamName_jobs, defaultUpstreamName_jobs]

lemma commonAttrs_set_jobs (pc : PackageConfig) (js : List JobConfig) :
    ({ pc with jobs := js } : PackageConfig).commonAttrs = pc.commonAttrs := rfl

/-- C1: for every raw document lacking a `jobs` key, the jobs of the
configuration returned by `PackageConfig.get_from_dict` are exactly the
Default Catalog's three canonical declarations each resolved per the §4.2
rules against the returned configuration's package-level attributes (the
attributes established by steps 2-4) — resolved `JobConfig` values, not the
raw declarations. -/
theorem C1_default_jobs_injected (raw_dict : RawDocument) (cfp rn sfp : Option String)
    (pc : PackageConfig) (hjobs : raw_dict.jobs = none)
    (h : PackageConfig.get_from_dict raw_dict cfp rn sfp = .ok pc) :
    default_jobs pc.commonAttrs = .ok pc.jobs := by
  unfold PackageConfig.get_from_dict at h
  have hj2 : (updateConfigFilePath raw_dict cfp).jobs = none := by
    rw [updateConfigFilePath_jobs]; exact hjobs
  cases h1 : schemaLoad (updateConfigFilePath raw_dict cfp) with
  | error e => rw [h1] at h; simp at h
  | ok pc0 =>
    rw [h1] at h
    simp only at h
    cases h2 : ensureSpecfilePath pc0 sfp with
    | error e => rw [h2] at h; simp at h
    | ok pc1 =>
      rw [h2] at h
      simp only at h
      unfold injectDefaultJobs at h
      rw [hj2] at h
      simp only [Option.isNone_none, if_true] at h
      cases h3 : default_jobs (defaultNamesFromRepo pc1 rn).commonAttrs with
      | error e => rw [h3] at h; simp [Except.map] at h
      | ok djs =>
        rw [h3] at h
        simp only [Except.map] at h
        injection h with h
        rw [← h, commonAttrs_set_jobs]
        exact h3

/-- C1 witness: a concrete raw document with no `jobs` key. -/
theorem C1_witness :
    RawDocument.jobs { specfile_path := some "foo.spec" } = none ∧
    default_jobs pcNoJobsKey.commonAttrs = .ok pcNoJobsKey.jobs :=
  ⟨rfl, C1_default_jobs_injected { specfile_path := some "foo.spec" } none none none
    pcNoJobsKey rfl rfl⟩

/-- C2: `get_from_dict` distinguishes key absence from emptiness: when the
`jobs` key is present, the resolved jobs are exactly those produced by the
schema load of the document (no defaults injected); in particular an
explicit empty job list stays empty. -/
theorem C2_explicit_jobs_preserved (raw_dict : RawDocument) (cfp rn sfp : Option String)
    (pc : PackageConfig) (l : List RawJob) (hjobs : raw_dict.jobs = some l)
    (h : PackageConfig.get_from_dict raw_dict cfp rn sfp = .ok pc) :
    (∃ pc0, schemaLoad (updateConfigFilePath raw_dict cfp) = .ok pc0 ∧ pc.jobs = pc0.jobs) ∧
    (l = [] → pc.jobs = []) := by
  unfold PackageConfig.get_from_dict at h
  have hj2 : (updateConfigFilePath raw_dict cfp).jobs = some l := by
    rw [updateConfigFilePath_jobs]; exact hjobs
  cases h1 : schemaLoad (updateConfigFilePath raw_dict cfp) with
  | error e => rw [h1] at h; simp at h
  | ok pc0 =>
    rw [h1] at h
    simp only at h
    cases h2 : ensureSpecfilePath pc0 sfp with
    | error e => rw [h2] at h; simp at h
    | ok pc1 =>
      rw [h2] at h
      simp only at h
      unfold injectDefaultJobs at h
      rw [hj2] at h
      simp only [Option.isNone_some, Bool.false_eq_true, if_false] at h
      injection h with h
      have hjeq : pc.jobs = pc0.jobs := by
        rw [← h, defaultNamesFromRepo_jobs, ensureSpecfilePath_ok_jobs h2]
      refine ⟨⟨pc0, rfl, hjeq⟩, fun hl => ?_⟩
      subst hl
      rw [hjeq]
      exact schemaLoad_empty_jobs hj2 h1

/-- C2 witness: a concrete raw document with an explicit `jobs: []`. -/
theorem C2_witness : pcEmptyJobs.jobs = [] :=
  (C2_explicit_jobs_preserved { specfile_path := some "foo.spec", jobs := some [] }
    none none none pcEmptyJobs [] rfl rfl).2 rfl

/-- C6 counterexample: for the empty raw document with no spec file hint,
`get_from_dict` raises the MissingSpecFile error, but `parse_loaded_config`
— the boundary through which the Resolver is invoked (lines 304-323) —
catches it like every other exception and re-raises the generic parse error,
so the MissingSpecFile error does **not** propagate to callers unwrapped. -/
theorem C6_counterexample :
    PackageConfig.get_from_dict {} none none none
      = .error (.packitConfigException "Spec file was not found!") ∧
    parse_loaded_config {} none none none
      = .error (.packitConfigException "Cannot parse package config: Spec file was not found!.") ∧
    PExc.packitConfigException "Cannot parse package config: Spec file was not found!."
      ≠ PExc.packitConfigException "Spec file was not found!" :=
  ⟨rfl, rfl, by decide⟩

/-- C6 (amended): for every raw document whose `specfile_path` is unset and
with no `spec_file_path` argument (and which passes schema validation),
`get_from_dict` fails with the MissingSpecFile error and returns no
configuration; invoked through `parse_loaded_config`, that error is wrapped
into the generic parse error rather than propagating directly. -/
theorem C6_missing_specfile (raw : RawDocument) (cfp rn sfp : Option String)
    (pc0 : PackageConfig)
    (hload : schemaLoad (updateConfigFilePath raw cfp) = .ok pc0)
    (hspec : ¬ optStrTruthy raw.specfile_path)
    (hsfp : ¬ optStrTruthy sfp) :
    PackageConfig.get_from_dict raw cfp rn sfp
      = .error (.packitConfigException "Spec file was not found!") ∧
    parse_loaded_config raw cfp rn sfp
      = .error (.packitConfigException "Cannot parse package config: Spec file was not found!.") := by
  have h0 : pc0.specfile_path = raw.specfile_path := by
    rw [schemaLoad_ok_specfile_path hload, updateConfigFilePath_specfile_path]
  have hmain : PackageConfig.get_from_dict raw cfp rn sfp
      = .error (.packitConfigException "Spec file was not found!") := by
    unfold PackageConfig.get_from_dict
    rw [hload]
    simp only
    unfold ensureSpecfilePath
    rw [h0]
    rw [if_neg hspec, if_neg hsfp]
  refine ⟨hmain, ?_⟩
  unfold parse_loaded_config
  rw [hmain]
  rfl

/-- C6 witness: a concrete raw document without `specfile_path`. -/
theorem C6_witness :
    PackageConfig.get_from_dict { upstream_package_name := some "x" } none none none
      = .error (.packitConfigException "Spec file was not found!") ∧
    parse_loaded_config { upstream_package_name := some "x" } none none none
      = .error (.packitConfigException "Cannot parse package config: Spec file was not found!.") :=
  C6_missing_specfile { upstream_package_name := some "x" } none none none
    (schemaPackageLevel { upstream_package_name := some "x" }) rfl
    (by decide) (by decide)

/-- C7: every exception raised during validation or transformation inside
`get_from_dict` is caught by `parse_loaded_config` and re-raised as the
single generic `PackitConfigException` with the original message embedded;
callers never see the underlying validation exception constructor, and no
configuration is returned on error. -/
theorem C7_errors_wrapped (raw : RawDocument) (cfp rn sfp : Option String) (e : PExc)
    (h : PackageConfig.get_from_dict raw cfp rn sfp = .error e) :
    parse_loaded_config raw cfp rn sfp
      = .error (.packitConfigException ("Cannot parse package config: " ++ e.message ++ ".")) ∧
    (∀ m, parse_loaded_config raw cfp rn sfp ≠ .error (.validationError m)) ∧
    (∀ pc, parse_loaded_config raw cfp rn sfp ≠ .ok pc) := by
  have hmain : parse_loaded_config raw cfp rn sfp
      = .error (.packitConfigException ("Cannot parse package config: " ++ e.message ++ ".")) := by
    unfold parse_loaded_config
    rw [h]
  refine ⟨hmain, fun m hm => ?_, fun pc hpc => ?_⟩
  · rw [hmain] at hm
    injection hm with hm
    exact PExc.noConfusion hm
  · rw [hmain] at hpc
    exact Except.noConfusion hpc

/-- C7 witness: a document failing schema validation (unknown job type); the
underlying ValidationError is hidden behind the generic parse error. -/
theorem C7_witness :
    parse_loaded_config
        { specfile_path := some "a.spec", jobs := some [{ job := "nope", trigger := "commit" }] }
        none none none
      = .error (.packitConfigException "Cannot parse package config: Invalid job type: nope.") :=
  (C7_errors_wrapped
    { specfile_path := some "a.spec", jobs := some [{ job := "nope", trigger := "commit" }] }
    none none none (.validationError "Invalid job type: nope") rfl).1

lemma downstream_project_url_read_cached (q : PackageConfig) (u : String)
    (h : q._downstream_project_url = some u) (hne : u ≠ "") :
    q.downstream_project_url = (u, q) := by
  unfold PackageConfig.downstream_project_url
  rw [h]
  simp [optStrTruthy, optStr, hne]

lemma dist_git_package_url_ne_empty (p : PackageConfig) : p.dist_git_package_url ≠ "" := by
  intro hcontra
  have hlen := congrArg String.length hcontra
  rw [PackageConfig.dist_git_package_url] at hlen
  rw [show ("" : String).length = 0 from rfl] at hlen
  simp only [String.length_append] at hlen
  rw [show (".git" : String).length = 4 from rfl] at hlen
  omega

/-- C3 counterexample: the empty string is an explicitly supplied
`downstream_project_url`, yet the property treats it as absent (the falsy
check on the cache cell) and a read returns the computed dist-git URL
instead of the supplied value. -/
theorem C3_counterexample :
    PackageConfigArgs.downstream_project_url
        ({ downstream_project_url := some "" } : PackageConfigArgs) = some "" ∧
    ((PackageConfig.init { downstream_project_url := some "" }).downstream_project_url).1
      = "https://src.fedoraproject.org/rpms/None.git" ∧
    ("https://src.fedoraproject.org/rpms/None.git" : String) ≠ "" :=
  ⟨rfl, rfl, by decide⟩

/-- C3 (amended): if an explicit **non-empty** `downstream_project_url` was
supplied at construction, every read returns it unchanged; otherwise (no
value, or the falsy empty string) the first read computes
`dist_git_package_url` and caches it, and later reads return the cached
value even after `dist_git_namespace` and `downstream_package_name` are
mutated. -/
theorem C3_memoization (p : PackageConfig) :
    (∀ s : String, p._downstream_project_url = some s → s ≠ "" →
      p.downstream_project_url = (s, p)) ∧
    (¬ optStrTruthy p._downstream_project_url →
      (p.downstream_project_url).1 = p.dist_git_package_url ∧
      ∀ ns : String, ∀ nm : Option String,
        (({ (p.downstream_project_url).2 with
              dist_git_namespace := ns, downstream_package_name := nm
           } : PackageConfig).downstream_project_url).1
          = (p.downstream_project_url).1) := by
  constructor
  · intro s hs hne
    exact downstream_project_url_read_cached p s hs hne
  · intro hcache
    have hfst : (p.downstream_project_url).1 = p.dist_git_package_url := by
      unfold PackageConfig.downstream_project_url
      rw [if_neg hcache]
    have hsnd : ((p.downstream_project_url).2)._downstream_project_url
        = some p.dist_git_package_url := by
      unfold PackageConfig.downstream_project_url
      rw [if_neg hcache]
    refine ⟨hfst, fun ns nm => ?_⟩
    have hq : ({ (p.downstream_project_url).2 with
          dist_git_namespace := ns, downstream_package_name := nm
        } : PackageConfig)._downstream_project_url
        = some p.dist_git_package_url := hsnd
    rw [hfst,
      downstream_project_url_read_cached _ _ hq (dist_git_package_url_ne_empty p)]

/-- C3 witness: concrete reads for both the explicit-URL case and the
memoized case with mutation between reads. -/
theorem C3_witness :
    (PackageConfig.init { downstream_project_url := some "https://example.com/x.git" }).downstream_project_url
      = ("https://example.com/x.git",
         PackageConfig.init { downstream_project_url := some "https://example.com/x.git" }) ∧
    ((PackageConfig.init { downstream_package_name := some "pkg" }).downstream_project_url).1
      = (PackageConfig.init { downstream_package_name := some "pkg" }).dist_git_package_url ∧
    (({ ((PackageConfig.init { downstream_package_name := some "pkg" }).downstream_project_url).2 with
          dist_git_namespace := "modules", downstream_package_name := some "other"
       } : PackageConfig).downstream_project_url).1
      = ((PackageConfig.init { downstream_package_name := some "pkg" }).downstream_project_url).1 :=
  ⟨(C3_memoization _).1 "https://example.com/x.git" rfl (by decide),
   ((C3_memoization _).2 (by decide)).1,
   ((C3_memoization _).2 (by decide)).2 "modules" (some "other")⟩

lemma get_all_files_stored_eq (p : PackageConfig) :
    ((p.get_all_files_to_sync).2).synced_files = (p.get_all_files_to_sync).1 := rfl

lemma addSpecToSync_append (p : PackageConfig) (l : List SyncFilesItem) :
    ∃ t, addSpecToSync p l = l ++ t := by
  unfold addSpecToSync
  split
  · exact ⟨[], by simp⟩
  · exact ⟨_, rfl⟩

lemma addConfigToSync_append (p : PackageConfig) (l : List SyncFilesItem) :
    ∃ t, addConfigToSync p l = l ++ t := by
  unfold addConfigToSync
  split
  · exact ⟨_, rfl⟩
  · exact ⟨[], by simp⟩

/-- C4 counterexample: on a configuration with a spec file path and an empty
stored synced-file set, a call to `get_all_files_to_sync` changes the stored
set (the source appends to the aliased list in place), so the stored set is
not left unmodified. -/
theorem C4_counterexample :
    ((PackageConfig.init { specfile_path := some "a.spec" }).get_all_files_to_sync).2.synced_files
      ≠ (PackageConfig.init { specfile_path := some "a.spec" }).synced_files := by decide

/-- C4 (amended): `get_all_files_to_sync` appends the missing default entries
to the stored synced-file set in place — after the call the stored set equals
the returned set, of which the entries stored before the call are an initial
segment (the operation only appends; it does not copy the stored set). -/
theorem C4_sync_set_mutated_in_place (p : PackageConfig) :
    ((p.get_all_files_to_sync).2).synced_files = (p.get_all_files_to_sync).1 ∧
    ∃ t, ((p.get_all_files_to_sync).1).files_to_sync
      = p.synced_files.files_to_sync ++ t := by
  refine ⟨get_all_files_stored_eq p, ?_⟩
  obtain ⟨t1, h1⟩ := addSpecToSync_append p p.synced_files.files_to_sync
  obtain ⟨t2, h2⟩ := addConfigToSync_append p (addSpecToSync p p.synced_files.files_to_sync)
  refine ⟨t1 ++ t2, ?_⟩
  show addConfigToSync p (addSpecToSync p p.synced_files.files_to_sync)
      = p.synced_files.files_to_sync ++ (t1 ++ t2)
  rw [h2, h1, List.append_assoc]

lemma countP_src_eq_zero {l : List SyncFilesItem} {v : Option String}
    (h : v ∉ l.map SyncFilesItem.src) :
    l.countP (fun i => decide (i.src = v)) = 0 := by
  rw [List.countP_eq_zero]
  intro a ha
  simp only [decide_eq_true_eq]
  intro hav
  exact h (List.mem_map.mpr ⟨a, ha, hav⟩)

lemma countP_append_single_le {l : List SyncFilesItem} {w v : Option String}
    (hmem : w ∉ l.map SyncFilesItem.src)
    (h : l.countP (fun i => decide (i.src = v)) ≤ 1) :
    (l ++ [SyncFilesItem.mk w w]).countP (fun i => decide (i.src = v)) ≤ 1 := by
  rw [List.countP_append]
  by_cases hv : w = v
  · subst hv
    rw [countP_src_eq_zero hmem]
    simp [List.countP_singleton]
  · have hz : ([SyncFilesItem.mk w w]).countP (fun i => decide (i.src = v)) = 0 := by
      simp [List.countP_singleton, hv]
    omega

lemma addSpecToSync_countP_le (p : PackageConfig) (l : List SyncFilesItem)
    (v : Option String) (h : l.countP (fun i => decide (i.src = v)) ≤ 1) :
    (addSpecToSync p l).countP (fun i => decide (i.src = v)) ≤ 1 := by
  unfold addSpecToSync
  split
  · exact h
  · next hmem => exact countP_append_single_le hmem h

lemma addConfigToSync_countP_le (p : PackageConfig) (l : List SyncFilesItem)
    (v : Option String) (h : l.countP (fun i => decide (i.src = v)) ≤ 1) :
    (addConfigToSync p l).countP (fun i => decide (i.src = v)) ≤ 1 := by
  unfold addConfigToSync
  split
  · next hcond =>
    have hmem : p.config_file_path ∉ l.map SyncFilesItem.src := by
      have := (Bool.and_eq_true _ _).mp hcond
      simpa using this.2
    exact countP_append_single_le hmem h
  · exact h

lemma get_all_files_countP_le (p : PackageConfig) (v : Option String)
    (h : countSrc p.synced_files v ≤ 1) :
    countSrc (p.get_all_files_to_sync).1 v ≤ 1 :=
  addConfigToSync_countP_le p _ v (addSpecToSync_countP_le p _ v h)

lemma mem_src_append (l t : List SyncFilesItem) (v : Option String)
    (h : v ∈ l.map SyncFilesItem.src) :
    v ∈ (l ++ t).map SyncFilesItem.src := by
  rw [List.map_append]
  exact List.mem_append_left _ h

lemma addSpecToSync_mem (p : PackageConfig) (l : List SyncFilesItem) :
    p.specfile_path ∈ (addSpecToSync p l).map SyncFilesItem.src := by
  unfold addSpecToSync
  split
  · next hmem => exact hmem
  · rw [List.map_append]
    exact List.mem_append_right _ (by simp)

lemma addConfigToSync_mem_of_mem (p : PackageConfig) (l : List SyncFilesItem)
    (v : Option String) (h : v ∈ l.map SyncFilesItem.src) :
    v ∈ (addConfigToSync p l).map SyncFilesItem.src := by
  unfold addConfigToSync
  split
  · exact mem_src_append l _ v h
  · exact h

lemma spec_src_mem_result (p : PackageConfig) :
    p.specfile_path ∈ ((p.get_all_files_to_sync).1).files_to_sync.map SyncFilesItem.src :=
  addConfigToSync_mem_of_mem p _ _ (addSpecToSync_mem p _)

lemma iterSync_fields (n : Nat) (p : PackageConfig) :
    (iterSync n p).specfile_path = p.specfile_path ∧
    (iterSync n p).config_file_path = p.config_file_path := by
  induction n generalizing p with
  | zero => exact ⟨rfl, rfl⟩
  | succ n ih =>
    simp only [iterSync]
    exact ih (p.get_all_files_to_sync).2

lemma iterSync_countSrc (n : Nat) (p : PackageConfig) (v : Option String)
    (h : countSrc p.synced_files v ≤ 1) :
    countSrc (iterSync n p).synced_files v ≤ 1 := by
  induction n generalizing p with
  | zero => exact h
  | succ n ih =>
    simp only [iterSync]
    refine ih _ ?_
    rw [get_all_files_stored_eq]
    exact get_all_files_countP_le p v h

/-- C5 counterexample: a configuration whose stored synced-file set was
constructed holding two entries whose `src` equals the spec file path (the
container does not reject duplicates); the returned set of
`get_all_files_to_sync` then contains two entries with that `src`. -/
theorem C5_counterexample :
    pcDupSrc.specfile_path = some "a.spec" ∧
    countSrc (pcDupSrc.get_all_files_to_sync).1 (some "a.spec") = 2 := by
  constructor
  · rfl
  · decide

/-- C5 (amended): provided the stored synced-file set initially holds at most
one entry whose `src` is the spec file path and at most one whose `src` is
the config file path, then after any number of successive calls the returned
set holds at most one entry with each of those `src` values (each default is
appended only when no entry with that `src` exists), and the spec-file entry
is always present in the result. -/
theorem C5_no_duplicated_defaults (p : PackageConfig) (n : Nat)
    (h1 : countSrc p.synced_files p.specfile_path ≤ 1)
    (h2 : countSrc p.synced_files p.config_file_path ≤ 1) :
    countSrc ((iterSync n p).get_all_files_to_sync).1 p.specfile_path ≤ 1 ∧
    countSrc ((iterSync n p).get_all_files_to_sync).1 p.config_file_path ≤ 1 ∧
    p.specfile_path ∈
      (((iterSync n p).get_all_files_to_sync).1).files_to_sync.map SyncFilesItem.src := by
  have hs := iterSync_countSrc n p _ h1
  have hc := iterSync_countSrc n p _ h2
  refine ⟨get_all_files_countP_le _ _ hs, get_all_files_countP_le _ _ hc, ?_⟩
  rw [← (iterSync_fields n p).1]
  exact spec_src_mem_result _

/-- C5 witness: a concrete configuration with both default paths, after two
successive calls. -/
theorem C5_witness :
    countSrc ((iterSync 2 pcBothPaths).get_all_files_to_sync).1 pcBothPaths.specfile_path ≤ 1 ∧
    countSrc ((iterSync 2 pcBothPaths).get_all_files_to_sync).1 pcBothPaths.config_file_path ≤ 1 ∧
    pcBothPaths.specfile_path ∈
      (((iterSync 2 pcBothPaths).get_all_files_to_sync).1).files_to_sync.map SyncFilesItem.src :=
  C5_no_duplicated_defaults pcBothPaths 2 (by decide) (by decide)

/-- C8: comparing a `JobConfig` for equality against any non-`JobConfig`
value raises the `PackitConfigException` from `JobConfig.__eq__` instead of
silently returning false. -/
theorem C8_jobconfig_eq_raises (j : JobConfig) (v : PyVal)
    (h : ∀ k : JobConfig, v ≠ PyVal.jobConfig k) :
    pyEq (PyVal.jobConfig j) v
      = .error (.packitConfigException "Provided object is not a JobConfig instance.") := by
  cases v with
  | jobConfig k => exact absurd rfl (h k)
  | packageConfig q => rfl
  | pyStr s => rfl
  | pyInt n => rfl
  | pyNone => rfl

/-- C8 witness: a concrete job compared against an integer. -/
theorem C8_witness :
    pyEq (PyVal.jobConfig jobTestsCommit) (PyVal.pyInt 0)
      = .error (.packitConfigException "Provided object is not a JobConfig instance.") :=
  C8_jobconfig_eq_raises jobTestsCommit (PyVal.pyInt 0) (fun _ h => PyVal.noConfusion h)

/-- C9 counterexample: comparing a `PackageConfig` against a `JobConfig` — a
value of an unrelated type — raises: `PackageConfig.__eq__` returns
`NotImplemented`, so Python evaluates the reflected `JobConfig.__eq__`,
which raises `PackitConfigException`. -/
theorem C9_counterexample :
    pyEq (PyVal.packageConfig (PackageConfig.init {})) (PyVal.jobConfig jobBuildRelease)
      = .error (.packitConfigException "Provided object is not a JobConfig instance.") := rfl

/-- C9 (amended): comparing a `PackageConfig` against a value of an unrelated
type yields non-equal without raising, **provided** the other value's own
equality method does not raise — i.e. for every value that is neither a
`PackageConfig` nor a `JobConfig`; against a `JobConfig` the reflected
comparison raises. -/
theorem C9_eq_unrelated_returns_false (p : PackageConfig) (v : PyVal)
    (hpc : ∀ q : PackageConfig, v ≠ PyVal.packageConfig q)
    (hjc : ∀ k : JobConfig, v ≠ PyVal.jobConfig k) :
    pyEq (PyVal.packageConfig p) v = .ok false := by
  cases v with
  | packageConfig q => exact absurd rfl (hpc q)
  | jobConfig k => exact absurd rfl (hjc k)
  | pyStr s => rfl
  | pyInt n => rfl
  | pyNone => rfl

/-- C9 witness: a concrete configuration compared against a string. -/
theorem C9_witness :
    pyEq (PyVal.packageConfig (PackageConfig.init { specfile_path := some "a.spec" }))
      (PyVal.pyStr "x") = .ok false :=
  C9_eq_unrelated_returns_false (PackageConfig.init { specfile_path := some "a.spec" })
    (PyVal.pyStr "x") (fun _ h => PyVal.noConfusion h) (fun _ h => PyVal.noConfusion h)

/-- C10: `PackageConfig.__eq__` compares only the enumerated fields, so two
configurations that differ only in `config_file_path`,
`patch_generation_ignore_paths`, `upstream_ref` or `notifications` compare
equal. -/
theorem C10_eq_ignores_uncompared_fields (p : PackageConfig) (c : Option String)
    (pg : List String) (ur : Option String) (nt : NotificationsConfig) :
    pyEq (PyVal.packageConfig p)
      (PyVal.packageConfig
        { p with config_file_path := c, patch_generation_ignore_paths := pg,
                 upstream_ref := ur, notifications := nt })
      = .ok true := by
  have hq : PackageConfig.eqFields p
      { p with config_file_path := c, patch_generation_ignore_paths := pg,
               upstream_ref := ur, notifications := nt } = true := by
    unfold PackageConfig.eqFields
    by_cases hdp : optStrTruthy p._downstream_project_url = true <;>
      simp [PackageConfig.downstream_project_url, PackageConfig.dist_git_package_url, hdp]
  simp [pyEq, dunderEq, hq]

end Packit
